import Mathlib

/-!
Verification development for the `dj_typed_settings` repository.

The repository has two computational cores, both embedded here shallowly:

* the structural validator (`src/dj_typed_settings/validator.py`):
  `validate_type`, the four nested-record walkers, and
  `validate_data_against_schema`, together with the `difflib`
  fuzzy-suggestion helper `get_close_matches` they use;
* the env-file parser (`src/dj_typed_settings/env.py`): `parse_env_file`
  and its `ParseError` locations.

Python runtime values are modelled with the inductive `PyValue`, runtime
type hints with `TypeHint`, schema dataclasses with `Schema` (the
reflection surface the validator reads: field name, declared type hint,
and whether the field has a default).  Raised exceptions are modelled
with `Except`.  The generated module `dj_typed_settings/schema.py`
(DatabaseSchema and friends) is not among the provided sources, so every
function that reads a schema takes it as an explicit parameter.
-/

/-- The Python classes that occur as (members of) type hints in the
settings schema and in the validator's tests. -/
inductive PyClass
  | intC
  | strC
  | boolC
  | floatC
  | listC
  | tupleC
  | dictC
  | noneC
  deriving DecidableEq, Repr

/-- `__name__` of the class, as used by the validator's error messages. -/
def PyClass.name : PyClass → String
  | .intC => "int"
  | .strC => "str"
  | .boolC => "bool"
  | .floatC => "float"
  | .listC => "list"
  | .tupleC => "tuple"
  | .dictC => "dict"
  | .noneC => "NoneType"

/-- A Python runtime value, restricted to the shapes the validator
inspects.  Float payloads are kept as their literal text (the validator
never computes with them, it only checks their class).  Dictionary keys
are strings, which is what the settings mappings use. -/
inductive PyValue
  | none
  | bool (b : Bool)
  | int (n : Int)
  | float (lit : String)
  | str (s : String)
  | list (items : List PyValue)
  | tuple (items : List PyValue)
  | dict (entries : List (String × PyValue))
  deriving Repr

/-- `type(value).__name__`. -/
def PyValue.type_name : PyValue → String
  | .none => "NoneType"
  | .bool _ => "bool"
  | .int _ => "int"
  | .float _ => "float"
  | .str _ => "str"
  | .list _ => "list"
  | .tuple _ => "tuple"
  | .dict _ => "dict"

/-- Python's `isinstance(value, cls)`.  Note that `bool` is a subclass
of `int` in Python, so `isinstance(True, int)` is `True`. -/
def isinstance : PyValue → PyClass → Bool
  | .bool _, .boolC => true
  | .bool _, .intC => true
  | .int _, .intC => true
  | .str _, .strC => true
  | .float _, .floatC => true
  | .list _, .listC => true
  | .tuple _, .tupleC => true
  | .dict _, .dictC => true
  | .none, .noneC => true
  | _, _ => false

/-- A runtime type hint as dispatched on by `validate_type` via
`typing.get_origin`/`get_args`:

* `prim c` — a plain class (`int`, `str`, `bool`, ..., `NoneType`);
* `union args` — `T1 | T2 | ...`.  On the Python versions this package
  supports (its schema uses `django.tasks` backends, so Django 6 /
  Python ≥ 3.12, where `typing.Union` and `types.UnionType` coincide)
  both `Union[..]` and PEP-604 unions take the `Union` branch;
* `listOf`/`tupleOf`/`dictOf args` — parameterised `list[..]`,
  `tuple[..]`, `dict[..]` generics, whose origin is `list`/`tuple`/`dict`;
* `any` — `typing.Any`;
* `other repr_name` — any other hint: its origin is none of
  `Union`/`list`/`tuple`/`dict`, it is not `Any`, and it fails
  `isinstance(hint, type)` (for example `set[str]` — parameterised
  generics are not instances of `type` on Python ≥ 3.11 — or
  `Literal[..]`), so `validate_type` falls through every branch for it. -/
inductive TypeHint
  | prim (cls : PyClass)
  | union (args : List TypeHint)
  | listOf (args : List TypeHint)
  | tupleOf (args : List TypeHint)
  | dictOf (args : List TypeHint)
  | any
  | other (repr_name : String)
  deriving Repr

/-- `arg.__name__ if hasattr(arg, "__name__") else str(arg)`, used when
rendering the expected-type list of a union error message.  A nested
`union` cannot occur as a union member (Python flattens unions), so its
rendering is arbitrary. -/
def TypeHint.hint_name : TypeHint → String
  | .prim c => c.name
  | .union _ => "Union"
  | .listOf _ => "list"
  | .tupleOf _ => "tuple"
  | .dictOf _ => "dict"
  | .any => "Any"
  | .other s => s

/-- `expected_item_type is dict or get_origin(expected_item_type) is dict`. -/
def TypeHint.is_dict_hint : TypeHint → Bool
  | .prim .dictC => true
  | .dictOf _ => true
  | _ => false

/-- Python `repr` of a simple string key (no embedded quotes), as used
in the `dict` value error path `'{field_name}[{key!r}]'`. -/
def repr_str (s : String) : String := "'" ++ s ++ "'"

/-- The item loop of the `List[T]` branch of `validate_type`: when the
declared item type is dict-like, each item must be a `dict`; the loop
raises at the first offender. -/
def list_items_dict_check (field_name : String) : Nat → List PyValue → Except String Unit
  | _, [] => .ok ()
  | i, item :: rest =>
    match item with
    | .dict _ => list_items_dict_check field_name (i + 1) rest
    | _ =>
      .error ("'" ++ field_name ++ "[" ++ toString i ++ "]' must be a dict, got " ++
        item.type_name)

/-- The value loop of the `Dict[K, V]` branch of `validate_type`: when
the declared value type is dict-like, each value must be a `dict`. -/
def dict_values_dict_check (field_name : String) : List (String × PyValue) → Except String Unit
  | [] => .ok ()
  | (key, val) :: rest =>
    match val with
    | .dict _ => dict_values_dict_check field_name rest
    | _ =>
      .error ("'" ++ field_name ++ "[" ++ repr_str key ++ "]' must be a dict, got " ++
        val.type_name)

mutual

/-- `validate_type(value, type_hint, field_name)` from
`src/dj_typed_settings/validator.py` (lines 20-97).  A raised
`TypeError` is modelled as `.error msg`; returning `None` as `.ok ()`.
Branches, in the source's order: `Union`, `list` origin, `tuple`
origin, `dict` origin, `Any`, plain classes; anything else falls
through and is accepted.  In the union failure message the expected
list drops `"NoneType"`; the empty-expected case cannot arise from a
Python union (it always has at least two distinct members, not all
`NoneType`), so it is rendered with a placeholder. -/
def validate_type (value : PyValue) (type_hint : TypeHint) (field_name : String) :
    Except String Unit :=
  match type_hint with
  | .union args =>
    if validate_type_first_ok value args field_name then .ok ()
    else
      let valid_types := (args.map TypeHint.hint_name).filter (· ≠ "NoneType")
      let expected :=
        if valid_types.length > 1 then
          String.intercalate ", " valid_types.dropLast ++ " or " ++
            (valid_types.getLast?.getD "")
        else valid_types.headD ""
      .error ("If '" ++ field_name ++ "' is specified, it must be a " ++ expected ++
        ", but got " ++ value.type_name)
  | .listOf args =>
    match value with
    | .list items =>
      match args with
      | [] => .ok ()
      | a :: _ => if a.is_dict_hint then list_items_dict_check field_name 0 items else .ok ()
    | _ => .error ("'" ++ field_name ++ "' must be list, got " ++ value.type_name)
  | .tupleOf _ =>
    match value with
    | .tuple _ => .ok ()
    | _ => .error ("'" ++ field_name ++ "' must be tuple, got " ++ value.type_name)
  | .dictOf args =>
    match value with
    | .dict entries =>
      match args with
      | _ :: a1 :: _ =>
        if a1.is_dict_hint then dict_values_dict_check field_name entries else .ok ()
      | _ => .ok ()
    | _ => .error ("'" ++ field_name ++ "' must be a dict, got " ++ value.type_name)
  | .any => .ok ()
  | .prim cls =>
    if isinstance value cls then .ok ()
    else .error ("'" ++ field_name ++ "' must be " ++ cls.name ++ ", got " ++ value.type_name)
  | .other _ => .ok ()

/-- The union branch's loop: try each member in order, succeeding at
the first member that validates (`try/except TypeError/break`). -/
def validate_type_first_ok (value : PyValue) (args : List TypeHint) (field_name : String) :
    Bool :=
  match args with
  | [] => false
  | a :: rest =>
    match validate_type value a field_name with
    | .ok _ => true
    | .error _ => validate_type_first_ok value rest field_name

end


/-! ### difflib: `SequenceMatcher` ratio and `get_close_matches`

`validator.py` calls `difflib.get_close_matches(word, possibilities,
n=3, cutoff=0.6)` for its typo suggestions.  The similarity ratio
`2*M/(len(a)+len(b))` is computed here as an exact rational; `M` is the
total size of `get_matching_blocks`, obtained by recursively splitting
around `find_longest_match`.  The strings involved are far below
`SequenceMatcher`'s autojunk threshold (200 characters), so the junk
machinery is inert: in particular the junk-extension loops after the
core dynamic program are no-ops, because with no junk characters the
dynamic program already returns maximal blocks. -/

/-- `b2j[c]`: the positions of character `c` in `b`, in ascending order. -/
def pos_list (b : List Char) (c : Char) : List Nat :=
  b.enum.filterMap (fun p => if p.2 = c then some p.1 else Option.none)

/-- `j2len.get(j, 0)` for the association list representing `j2len`. -/
def j2get (m : List (Nat × Nat)) (j : Nat) : Nat := (m.lookup j).getD 0

/-- One inner step of `find_longest_match`'s dynamic program: process a
single candidate position `j` of `a[i]` within `b` (skipping positions
outside `[blo, bhi)`, as the source's `continue`/`break` do), extending
the run ending at `(i-1, j-1)` and updating the running best block
`(besti, bestj, bestsize)`. -/
def flm_step (j2len : List (Nat × Nat)) (blo bhi i : Nat)
    (st : List (Nat × Nat) × (Nat × Nat × Nat)) (j : Nat) :
    List (Nat × Nat) × (Nat × Nat × Nat) :=
  if j < blo then st
  else if bhi ≤ j then st
  else
    let k := (if j = 0 then 0 else j2get j2len (j - 1)) + 1
    let best := if k > st.2.2.2 then (i + 1 - k, j + 1 - k, k) else st.2
    ((j, k) :: st.1, best)

/-- `SequenceMatcher.find_longest_match(alo, ahi, blo, bhi)` with no
junk: the longest block `(besti, bestj, bestsize)` with
`a[besti:besti+bestsize] == b[bestj:bestj+bestsize]` inside the given
bounds, ties broken towards the earliest end position. -/
def find_longest_match (a b : List Char) (alo ahi blo bhi : Nat) : Nat × Nat × Nat :=
  ((List.range' alo (ahi - alo)).foldl
    (fun st i =>
      let js := pos_list b (a.getD i ' ')
      js.foldl (flm_step st.1 blo bhi i) ([], st.2))
    ([], (alo, blo, 0))).2

/-- Total size of `get_matching_blocks`: the matched block found by
`find_longest_match` plus, recursively, the matches to its left and to
its right.  `fuel` bounds the recursion depth; each recursive call
strictly shrinks the interval sum, so the `(ahi-alo)+(bhi-blo)+1` fuel
passed by `ratioRat` always suffices. -/
def match_total (a b : List Char) : Nat → Nat → Nat → Nat → Nat → Nat
  | 0, _, _, _, _ => 0
  | fuel + 1, alo, ahi, blo, bhi =>
    let r := find_longest_match a b alo ahi blo bhi
    if r.2.2 = 0 then 0
    else
      r.2.2 + match_total a b fuel alo r.1 blo r.2.1 +
        match_total a b fuel (r.1 + r.2.2) ahi (r.2.1 + r.2.2) bhi

/-- `SequenceMatcher(None, a, b).ratio()` as an exact rational:
`2*M/T` where `M` is the number of matched characters and `T` the total
length, or `1` when both strings are empty.  (`difflib` computes this
in floating point; the comparisons the validator makes are far from the
representation boundary, so the exact rational is faithful.) -/
def ratioRat (a b : String) : Rat :=
  let la := a.data.length
  let lb := b.data.length
  let m := match_total a.data b.data (la + lb + 1) 0 la 0 lb
  if la + lb = 0 then 1 else (2 * m : Rat) / ((la + lb : Nat) : Rat)

/-- `difflib.get_close_matches(word, possibilities, n, cutoff)`: the
possibilities whose ratio against `word` is at least `cutoff`, the best
`n` of them, best first.  (`real_quick_ratio` and `quick_ratio` are
upper bounds of `ratio`, so the source's triple filter is equivalent to
filtering on `ratio` alone.)  `heapq.nlargest` orders the `(ratio, x)`
pairs lexicographically, so ties on the ratio are broken towards the
lexicographically larger string; this also makes the result independent
of the iteration order of the possibility set. -/
def get_close_matches (word : String) (possibilities : List String) (n : Nat) (cutoff : Rat) :
    List String :=
  let scored := possibilities.filterMap (fun x =>
    let r := ratioRat x word
    if cutoff ≤ r then some (r, x) else Option.none)
  let sorted := scored.mergeSort (fun p q =>
    decide (q.1 < p.1) || (decide (p.1 = q.1) && !decide (p.2 < q.2)))
  (sorted.take n).map (·.2)

/-- Python `sorted` on a set of strings: ascending lexicographic order
(by code point), used for the `Valid keys are:` message. -/
def sort_strings (l : List String) : List String :=
  l.mergeSort (fun a b => !decide (b < a))

/-! ### Schema reflection surface and the record walkers

A dataclass schema is reflected by the validator through
`dataclasses.fields` and `typing.get_type_hints`: for each field it
reads the name, the declared type hint, and whether
`default`/`default_factory` are both `MISSING` (the field is then
required).  `Schema` captures exactly that surface, in field order.
The concrete generated schemas (`DatabaseSchema`, `CacheSchema`,
`TemplateSchema`, `AuthPasswordValidatorSchema`, `SettingsSchema`) live
in the generated `dj_typed_settings/schema.py`, which is not among the
provided sources, so they are passed in as values. -/

structure SchemaField where
  name : String
  hint : TypeHint
  /-- `false` when both `default` and `default_factory` are `MISSING`,
  i.e. the field is required. -/
  hasDefault : Bool

abbrev Schema := List SchemaField

/-- The field-name set of a schema
(`{f.name for f in fields(schema_cls)}`): membership-wise the set of
field names (`dedup` removes the duplicates a Python `set` cannot
hold; dataclass fields are unique anyway). -/
def valid_keys_of (schema : Schema) : List String :=
  (schema.map SchemaField.name).dedup

/-- The `Invalid key ...` message shared by the four nested walkers
(`label` is rendered as e.g. `DATABASES['default']` or `TEMPLATES[0]`):
up to 3 fuzzy suggestions at cutoff 0.6, else the sorted valid keys. -/
def invalid_key_message (label key : String) (valid_keys : List String) : String :=
  let base := "Invalid key '" ++ key ++ "' in " ++ label ++ "."
  let suggestions := get_close_matches key valid_keys 3 (3 / 5)
  if suggestions.isEmpty then
    base ++ " Valid keys are: " ++ String.intercalate ", " (sort_strings valid_keys)
  else
    base ++ " Did you mean: " ++ String.intercalate ", " suggestions ++ "?"

/-- The first loop of each nested walker: every non-ignored key of the
config that is not a declared schema field yields an
`invalid_key_message`.  `entry_path` is the dotted container path (for
example `DATABASES.default`). -/
def invalid_key_errors (entry_path label : String) (valid_keys : List String)
    (ignore_errors : List String) : List (String × PyValue) → List String
  | [] => []
  | (key, _) :: rest =>
    if (entry_path ++ "." ++ key) ∈ ignore_errors then
      invalid_key_errors entry_path label valid_keys ignore_errors rest
    else if key ∈ valid_keys then
      invalid_key_errors entry_path label valid_keys ignore_errors rest
    else
      invalid_key_message label key valid_keys ::
        invalid_key_errors entry_path label valid_keys ignore_errors rest

/-- The second loop of each nested walker: for every non-ignored
declared field, a missing required field yields a
`Missing required key` error and a present field is type-checked at
its dotted path. -/
def nested_field_errors (entry_path label : String) (config : List (String × PyValue))
    (ignore_errors : List String) : Schema → List String
  | [] => []
  | f :: rest =>
    let dotted := entry_path ++ "." ++ f.name
    if dotted ∈ ignore_errors then
      nested_field_errors entry_path label config ignore_errors rest
    else
      match config.lookup f.name with
      | Option.none =>
        if f.hasDefault then nested_field_errors entry_path label config ignore_errors rest
        else
          ("Missing required key '" ++ f.name ++ "' in " ++ label) ::
            nested_field_errors entry_path label config ignore_errors rest
      | some value =>
        match validate_type value f.hint dotted with
        | .ok _ => nested_field_errors entry_path label config ignore_errors rest
        | .error e => e :: nested_field_errors entry_path label config ignore_errors rest

/-- Common body of `validate_nested_database` / `_cache` / `_template`
/ `_auth_password_validator` (the four are copies of each other in the
source up to the container path and label): if the whole entry is
ignored the result is `[]`, otherwise the invalid-key errors followed
by the per-field errors. -/
def validate_nested_config (entry_path label : String) (schema : Schema)
    (config : List (String × PyValue)) (ignore_errors : List String) : List String :=
  if entry_path ∈ ignore_errors then []
  else
    invalid_key_errors entry_path label (valid_keys_of schema) ignore_errors config ++
      nested_field_errors entry_path label config ignore_errors schema

/-- `validate_nested_database(db_name, db_config, ignore_errors)`,
lines 100-157 of `validator.py`, with `DatabaseSchema` passed
explicitly. -/
def validate_nested_database (database_schema : Schema) (db_name : String)
    (db_config : List (String × PyValue)) (ignore_errors : List String) : List String :=
  validate_nested_config ("DATABASES." ++ db_name) ("DATABASES['" ++ db_name ++ "']")
    database_schema db_config ignore_errors

/-- `validate_nested_cache`, lines 160-217 of `validator.py`. -/
def validate_nested_cache (cache_schema : Schema) (cache_name : String)
    (cache_config : List (String × PyValue)) (ignore_errors : List String) : List String :=
  validate_nested_config ("CACHES." ++ cache_name) ("CACHES['" ++ cache_name ++ "']")
    cache_schema cache_config ignore_errors

/-- `validate_nested_template`, lines 220-277 of `validator.py`; the
entry is addressed by its list index. -/
def validate_nested_template (template_schema : Schema) (index : Nat)
    (template_config : List (String × PyValue)) (ignore_errors : List String) : List String :=
  validate_nested_config ("TEMPLATES." ++ toString index)
    ("TEMPLATES[" ++ toString index ++ "]") template_schema template_config ignore_errors

/-- `validate_nested_auth_password_validator`, lines 280-339 of
`validator.py`. -/
def validate_nested_auth_password_validator (validator_schema : Schema) (index : Nat)
    (validator_config : List (String × PyValue)) (ignore_errors : List String) : List String :=
  validate_nested_config ("AUTH_PASSWORD_VALIDATORS." ++ toString index)
    ("AUTH_PASSWORD_VALIDATORS[" ++ toString index ++ "]") validator_schema validator_config
    ignore_errors

/-- The four generated nested schemas that
`validate_data_against_schema` hard-codes by settings name. -/
structure NestedSchemas where
  database : Schema
  cache : Schema
  template : Schema
  authValidator : Schema

/-- The special-cased nested walks of `validate_data_against_schema`
(lines 376-406): for a field named `DATABASES`/`CACHES` whose value is
a dict, walk each dict-valued entry; for `TEMPLATES`/
`AUTH_PASSWORD_VALIDATORS` whose value is a list, walk each dict-valued
item with its index.  Any other field, or a value of the wrong shape,
contributes nothing here. -/
def nested_errors (env : NestedSchemas) (name : String) (value : PyValue)
    (ignore_errors : List String) : List String :=
  if name = "DATABASES" then
    match value with
    | .dict entries =>
      entries.foldl (fun acc e =>
        match e.2 with
        | .dict cfg => acc ++ validate_nested_database env.database e.1 cfg ignore_errors
        | _ => acc) []
    | _ => []
  else if name = "CACHES" then
    match value with
    | .dict entries =>
      entries.foldl (fun acc e =>
        match e.2 with
        | .dict cfg => acc ++ validate_nested_cache env.cache e.1 cfg ignore_errors
        | _ => acc) []
    | _ => []
  else if name = "TEMPLATES" then
    match value with
    | .list items =>
      items.enum.foldl (fun acc e =>
        match e.2 with
        | .dict cfg => acc ++ validate_nested_template env.template e.1 cfg ignore_errors
        | _ => acc) []
    | _ => []
  else if name = "AUTH_PASSWORD_VALIDATORS" then
    match value with
    | .list items =>
      items.enum.foldl (fun acc e =>
        match e.2 with
        | .dict cfg =>
          acc ++ validate_nested_auth_password_validator env.authValidator e.1 cfg ignore_errors
        | _ => acc) []
    | _ => []
  else []

/-- The field loop of `validate_data_against_schema` (lines 353-406):
iterate the schema's fields in declaration order; skip ignored names;
report a missing required field; type-check a present value, skipping
the nested walks when the type check fails (`continue`), running them
when it succeeds. -/
def collect_errors (env : NestedSchemas) (data : List (String × PyValue))
    (ignore_errors : List String) : Schema → List String
  | [] => []
  | f :: rest =>
    if f.name ∈ ignore_errors then collect_errors env data ignore_errors rest
    else
      match data.lookup f.name with
      | Option.none =>
        if f.hasDefault then collect_errors env data ignore_errors rest
        else ("Missing required setting: " ++ f.name) :: collect_errors env data ignore_errors rest
      | some value =>
        match validate_type value f.hint f.name with
        | .error e => e :: collect_errors env data ignore_errors rest
        | .ok _ =>
          nested_errors env f.name value ignore_errors ++ collect_errors env data ignore_errors rest

/-- The hard-coded set of common Django settings the unknown-key loop
always skips (lines 420-442 of `validator.py`). -/
def common_unvalidated_settings : List String :=
  ["TYPED_SETTINGS_IGNORE_ERRORS", "BASE_DIR", "SITE_ID", "APPEND_SLASH", "PREPEND_WWW",
    "DEFAULT_AUTO_FIELD", "USE_THOUSAND_SEPARATOR", "NUMBER_GROUPING", "DECIMAL_SEPARATOR",
    "THOUSAND_SEPARATOR", "DATE_FORMAT", "DATETIME_FORMAT", "TIME_FORMAT", "SHORT_DATE_FORMAT",
    "SHORT_DATETIME_FORMAT", "FIRST_DAY_OF_WEEK", "DATE_INPUT_FORMATS", "TIME_INPUT_FORMATS",
    "DATETIME_INPUT_FORMATS", "YEAR_MONTH_FORMAT", "MONTH_DAY_FORMAT"]

/-- The advisory message built for an unknown top-level setting with a
close fuzzy match (line 451 of `validator.py`). -/
def unknown_setting_message (setting_name : String) (suggestions : List String) : String :=
  "Unknown setting '" ++ setting_name ++ "'. Did you mean: " ++
    String.intercalate ", " suggestions ++ "?"

/-- `setting_name.startswith("_")`. -/
def starts_with_underscore (s : String) : Bool :=
  match s.data with
  | c :: _ => c = '_'
  | [] => false

/-- The unknown-top-level-key loop of `validate_data_against_schema`
(lines 408-453): private names, ignored names, declared names and the
common Django settings are skipped; any other key is only *logged*
(`logger.debug`), and only when it has a close fuzzy match among the
declared names — the `errors.append` for this case is commented out in
the source.  The function returns the ordered log messages. -/
def collect_logs (valid_setting_names : List String) (ignore_errors : List String) :
    List (String × PyValue) → List String
  | [] => []
  | (setting_name, _) :: rest =>
    if starts_with_underscore setting_name || setting_name ∈ ignore_errors then
      collect_logs valid_setting_names ignore_errors rest
    else if setting_name ∈ valid_setting_names then
      collect_logs valid_setting_names ignore_errors rest
    else if setting_name ∈ common_unvalidated_settings then
      collect_logs valid_setting_names ignore_errors rest
    else
      match get_close_matches setting_name valid_setting_names 3 (3 / 5) with
      | [] => collect_logs valid_setting_names ignore_errors rest
      | suggestions =>
        unknown_setting_message setting_name suggestions ::
          collect_logs valid_setting_names ignore_errors rest

/-- `validate_data_against_schema(data, schema_cls, ignore_errors)`
(lines 342-456 of `validator.py`): run the field loop and the
unknown-key loop, then raise a single `ValueError` joining every
accumulated error with newlines, or return normally.  The first
component is the outcome (the raised aggregate error or `()`), the
second the advisory log messages emitted along the way. -/
def validate_data_against_schema (env : NestedSchemas) (data : List (String × PyValue))
    (schema : Schema) (ignore_errors : List String) : Except String Unit × List String :=
  let errors := collect_errors env data ignore_errors schema
  let logs := collect_logs (valid_keys_of schema) ignore_errors data
  (if errors.isEmpty then .ok () else .error (String.intercalate "\n" errors), logs)

/-! ### The coercion pass `cast_to_type`

The string utilities here are defined at character level (rather than
through the `String` library functions) so that every definition in the
file evaluates by reduction. -/

/-- Python's `str.isspace`, and the `\s` class of the env-parser
regexes (ASCII subset: space, tab, newline, carriage return, vertical
tab, form feed). -/
def is_space_char (c : Char) : Bool :=
  c = ' ' || c = '\t' || c = '\n' || c = '\r' || c = Char.ofNat 11 || c = Char.ofNat 12

/-- Python `str.strip()` on the character list: whitespace removed from
both ends. -/
def strip_chars (l : List Char) : List Char :=
  ((l.dropWhile is_space_char).reverse.dropWhile is_space_char).reverse

/-- Python `str.lower()` (ASCII subset). -/
def str_lower (s : String) : String := ⟨s.data.map Char.toLower⟩

/-- Accumulate a decimal digit run; fails at the first non-digit. -/
def nat_of_digits_go (acc : Nat) : List Char → Option Nat
  | [] => some acc
  | c :: rest =>
    if c.isDigit then nat_of_digits_go (acc * 10 + (c.toNat - '0'.toNat)) rest
    else Option.none

/-- A non-empty decimal digit run as a number. -/
def nat_of_digits : List Char → Option Nat
  | [] => Option.none
  | l => nat_of_digits_go 0 l

/-- Python `int(s)` on the shapes the coercion pass meets: an optional
sign followed by decimal digits, else failure. -/
def str_to_int? (s : String) : Option Int :=
  match s.data with
  | '-' :: rest => (nat_of_digits rest).map (fun n => -(n : Int))
  | '+' :: rest => (nat_of_digits rest).map (fun n => (n : Int))
  | l => (nat_of_digits l).map (fun n => (n : Int))

/-- A decimal float literal: optional leading minus, then digits and at
most one dot, with at least one digit. -/
def is_float_string (s : String) : Bool :=
  let t := match s.data with | '-' :: rest => rest | l => l
  t.all (fun c => c.isDigit || c = '.') && t.count '.' ≤ 1 && t.any Char.isDigit

/-- Split on a single delimiter character (the delimiters the coercion
pass is used with — `,` by default, `|` in the tests — are single
characters). -/
def split_on_char (d : Char) : List Char → List (List Char)
  | [] => [[]]
  | c :: rest =>
    match split_on_char d rest with
    | [] => [[]]
    | h :: t => if c = d then [] :: h :: t else (c :: h) :: t

/-- The delimiter-split-and-strip applied to a string value for a
list-typed field. -/
def split_pieces (list_delimiter : String) (s : String) : List String :=
  (split_on_char (list_delimiter.data.headD ',') s.data).map
    (fun p => (⟨strip_chars p⟩ : String))

mutual

/-- Structural equality of Python values (`==`/`!=` on the shapes
modelled here), used to detect whether a cast changed its input. -/
def pyeq : PyValue → PyValue → Bool
  | .none, .none => true
  | .bool a, .bool b => a == b
  | .int a, .int b => a == b
  | .float a, .float b => a == b
  | .str a, .str b => a == b
  | .list xs, .list ys => pyeq_list xs ys
  | .tuple xs, .tuple ys => pyeq_list xs ys
  | .dict xs, .dict ys => pyeq_entries xs ys
  | _, _ => false

def pyeq_list : List PyValue → List PyValue → Bool
  | [], [] => true
  | x :: xs, y :: ys => pyeq x y && pyeq_list xs ys
  | _, _ => false

def pyeq_entries : List (String × PyValue) → List (String × PyValue) → Bool
  | [], [] => true
  | x :: xs, y :: ys => x.1 == y.1 && pyeq x.2 y.2 && pyeq_entries xs ys
  | _, _ => false

end

mutual

/-- Modelled from the spec: the coercion helper
`cast_to_type(value, type_descriptor, list_delimiter=",")` belongs to
this repository's validator module — it is imported from
`dj_typed_settings.validator` in `dj_typed_settings/__init__.py` and
exercised by `tests/validator/test_cast_to_type.py` — but its
definition is not among the provided source files, so it is modelled
from the spec's description: recognise case-insensitive `true`/`1` and
`false`/`0` for bool fields; integer and float parse-or-leave-unchanged
for numeric fields; split a string value on the delimiter (stripping
each piece) into a list for list fields, recursively casting each item
when an item type is declared; for optional/union types, `None` or the
literal string `none` (case-insensitive) yields `None`, otherwise each
alternative is tried in turn keeping the first cast that changed the
value; in every other situation the original value is returned
unchanged.  Total by construction, so it never raises. -/
def cast_to_type (value : PyValue) (type_hint : TypeHint) (list_delimiter : String := ",") :
    PyValue :=
  match type_hint with
  | .prim .boolC =>
    match value with
    | .str s =>
      let l := str_lower s
      if l = "true" || l = "1" then .bool true
      else if l = "false" || l = "0" then .bool false
      else value
    | _ => value
  | .prim .intC =>
    match value with
    | .str s => match str_to_int? s with | some n => .int n | Option.none => value
    | _ => value
  | .prim .floatC =>
    match value with
    | .str s => if is_float_string s then .float s else value
    | _ => value
  | .prim .listC =>
    match value with
    | .str s => .list ((split_pieces list_delimiter s).map PyValue.str)
    | _ => value
  | .listOf args =>
    match value with
    | .str s =>
      match args with
      | [] => .list ((split_pieces list_delimiter s).map PyValue.str)
      | a :: _ => .list (cast_list_items a list_delimiter (split_pieces list_delimiter s))
    | _ => value
  | .union args =>
    if pyeq value .none then .none
    else if (match value with | .str s => str_lower s == "none" | _ => false) then .none
    else cast_union_first value args list_delimiter
  | _ => value
termination_by (sizeOf type_hint, 0)

/-- Cast each delimiter piece of a list-typed field to the declared
item type. -/
def cast_list_items (a : TypeHint) (list_delimiter : String) :
    List String → List PyValue
  | [] => []
  | p :: ps => cast_to_type (.str p) a list_delimiter :: cast_list_items a list_delimiter ps
termination_by ps => (sizeOf a, 1 + sizeOf ps)

/-- Try each union alternative in turn, keeping the first cast that
changed the value, falling back to the original value if none did. -/
def cast_union_first (value : PyValue) (args : List TypeHint) (list_delimiter : String) :
    PyValue :=
  match args with
  | [] => value
  | a :: rest =>
    let r := cast_to_type value a list_delimiter
    if pyeq r value then cast_union_first value rest list_delimiter else r
termination_by (sizeOf args, 1)

end


/-! ### The env-file parser

`parse_env_file` in `src/dj_typed_settings/env.py` is a cursor state
machine driven by a handful of anchored regular expressions.  Each
regex is simple enough to resolve deterministically, and is embedded
below as a character-level scanning function (the justification that
backtracking cannot produce a different outcome accompanies each one).
The machine itself is embedded with the unconsumed input as an explicit
list and the number of consumed characters as the cursor (the source
indexes `content[cursor:]`); the loop runs on a fuel budget of
`2 * len(content) + 2`, which a measure argument (every iteration
either consumes a character or commits an assignment and returns to
name scanning) shows is never exhausted. -/

/-- The `[\s\t;]` character class of the env-parser regexes. -/
def is_ws_semi (c : Char) : Bool := is_space_char c || c = ';'

/-- The `\w` class (ASCII): letters, digits, underscore. -/
def is_word_char (c : Char) : Bool := c.isAlpha || c.isDigit || c = '_'

/-- `[a-zA-Z_]`, the first character of a variable name. -/
def is_ident_start (c : Char) : Bool := c.isAlpha || c = '_'

/-- Greedy match of `[a-zA-Z_][a-zA-Z_0-9]*` at the front of the
input: the maximal word run and the remainder.  Backtracking to a
shorter run never helps the patterns below, because the character
following any proper prefix of the run is a word character, which can
match neither `=` nor end-of-pattern failure recovery. -/
def ident_take (l : List Char) : Option (List Char × List Char) :=
  match l with
  | c :: _ =>
    if is_ident_start c then some (l.takeWhile is_word_char, l.dropWhile is_word_char)
    else Option.none
  | [] => Option.none

/-- Match `([a-zA-Z_][a-zA-Z_0-9]*)=` at the front of the input,
returning the name and the number of characters consumed (through the
`=`). -/
def ident_assign_match (l : List Char) : Option (String × Nat) :=
  match ident_take l with
  | some (name, rest) =>
    match rest with
    | '=' :: _ => some (⟨name⟩, name.length + 1)
    | _ => Option.none
  | Option.none => Option.none

/-- The optional `(?:export[\s\t]+)?` group: if the input starts with
the literal `export` followed by at least one whitespace character,
return the whitespace-run length and the remainder.  ([\s\t] equals \s;
a shorter whitespace run cannot help, since an identifier cannot start
at a whitespace character.) -/
def export_split (l : List Char) : Option (Nat × List Char) :=
  match l with
  | 'e' :: 'x' :: 'p' :: 'o' :: 'r' :: 't' :: r =>
    let ws2 := (r.takeWhile is_space_char).length
    if ws2 = 0 then Option.none else some (ws2, r.dropWhile is_space_char)
  | _ => Option.none

/-- Anchored match of `ASSIGNMENT_PATTERN`
(`^[\s\t;]*(?:export[\s\t]+)?([a-zA-Z_][a-zA-Z_0-9]*)=`) at the front
of the input: the captured name and the characters consumed.  The
leading `[\s\t;]*` run is taken greedily (a shorter run would have to
start the rest of the pattern at a whitespace-or-semicolon character,
which cannot begin `export` or an identifier); when the `export` branch
matches but no `name=` follows it, the no-`export` alternative also
fails, because the identifier it would capture is the word `export`
itself, which is followed by whitespace rather than `=`. -/
def assign_match_at (t : List Char) : Option (String × Nat) :=
  let wsn := (t.takeWhile is_ws_semi).length
  let rest := t.dropWhile is_ws_semi
  match export_split rest with
  | some (ws2, r2) =>
    match ident_assign_match r2 with
    | some (name, k) => some (name, wsn + 6 + ws2 + k)
    | Option.none => Option.none
  | Option.none =>
    match ident_assign_match rest with
    | some (name, k) => some (name, wsn + k)
    | Option.none => Option.none

/-- `re.search(ASSIGNMENT_PATTERN, text, re.MULTILINE)`: with the
`^` anchor, candidate match positions are the start of the searched
string and every position following a newline; the earliest candidate
with an anchored match wins.  `pos` is the candidate position's offset
(the cursor the search started from), `at_start` whether the current
position is a candidate; the returned offset is `match.end()` relative
to that cursor's origin. -/
def find_assignment (pos : Nat) (at_start : Bool) : List Char → Option (String × Nat)
  | [] => Option.none
  | c :: rest =>
    if at_start then
      match assign_match_at (c :: rest) with
      | some (name, k) => some (name, pos + k)
      | Option.none => find_assignment (pos + 1) (c = '\n') rest
    else find_assignment (pos + 1) (c = '\n') rest

/-- Anchored match of `VARNAME_PATTERN`
(`^[\s\t;]*(?:export[\s\t]+)?([a-zA-Z_][a-zA-Z_0-9]*)`), returning the
characters consumed through the identifier.  Unlike the assignment
pattern, when the `export` branch matches but no identifier follows,
the pattern still matches by dropping the optional group and capturing
the word `export` itself. -/
def varname_match_at (t : List Char) : Option Nat :=
  let wsn := (t.takeWhile is_ws_semi).length
  let rest := t.dropWhile is_ws_semi
  match export_split rest with
  | some (ws2, r2) =>
    match ident_take r2 with
    | some (name, _) => some (wsn + 6 + ws2 + name.length)
    | Option.none => some (wsn + 6)
  | Option.none =>
    match ident_take rest with
    | some (name, _) => some (wsn + name.length)
    | Option.none => Option.none

/-- Anchored match of `COMMENT_SUFFIX_PATTERN` (`^[\s\t;]*\#.*?\n`,
without `re.MULTILINE`, so `.` stops at a newline): a greedy
whitespace-or-semicolon run — which may span newlines — followed by
`#`, then everything up to and including the next newline.  Returns
the characters consumed. -/
def comment_match_at (t : List Char) : Option Nat :=
  let wsn := (t.takeWhile is_ws_semi).length
  match t.dropWhile is_ws_semi with
  | '#' :: r =>
    let line_len := (r.takeWhile (· ≠ '\n')).length
    match r.dropWhile (· ≠ '\n') with
    | '\n' :: _ => some (wsn + 1 + line_len + 1)
    | _ => Option.none
  | _ => Option.none

/-- The terminator class of `UNQUOTED_VALUE_PATTERN`
(`^(.*?)(?:(\t|\s|;|'|\"|\\+))`): whitespace (including the newline the
lazy `.*?` cannot cross), semicolon, either quote, or a backslash. -/
def is_unquoted_term (c : Char) : Bool :=
  is_space_char c || c = ';' || c = '\'' || c = '"' || c = '\\'

/-- Python dict assignment `result[var_name] = value`: overwrite in
place when the key exists, else append. -/
def dict_insert (m : List (String × String)) (k v : String) : List (String × String) :=
  if m.any (fun p => p.1 == k) then m.map (fun p => if p.1 == k then (k, v) else p)
  else m ++ [(k, v)]

/-- A raised `ParseError`: the issue text plus the 1-indexed line
number and the position within that line, computed by
`ParseError._get_line_number` from the character offset. -/
structure EnvParseError where
  issue : String
  line_num : Nat
  position : Nat
  deriving DecidableEq, Repr

/-- The loop of `ParseError._get_line_number`: walk the original lines,
stopping at the line that still contains the offset. -/
def get_line_number_go (line_num pos : Nat) : List String → Nat × Nat
  | [] => (line_num, pos)
  | line :: rest =>
    if line.length > pos then (line_num, pos)
    else get_line_number_go (line_num + 1) (pos - line.length) rest

/-- `ParseError._get_line_number(position, lines)`: 1-indexed line
number and position within the line. -/
def get_line_number (position : Nat) (lines : List String) : Nat × Nat :=
  get_line_number_go 1 position lines

/-- Construct the `ParseError` raised at character offset `offset`. -/
def mk_parse_error (issue : String) (offset : Nat) (lines : List String) : EnvParseError :=
  { issue := issue
    line_num := (get_line_number offset lines).1
    position := (get_line_number offset lines).2 }

/-- The parser states of `env.py`. -/
inductive EnvState
  | scan_var_name
  | scan_value
  | in_single_quote
  | in_double_quote
  deriving DecidableEq, Repr

/-- One run of the `parse_env_file` while-loop.  `rest` is
`content[pos:]`; `var_name`/`var_content`/`result` are the loop
variables of the source.  Each branch mirrors one state case of the
source's loop body; a committed assignment keeps the terminating
whitespace in `rest` (the source does not advance the cursor past it).
The fuel only bounds the iteration count and is never exhausted for
the budget `parse_env_file` supplies. -/
def env_run (lines : List String) : Nat → EnvState → List Char → Nat → Option String →
    List String → List (String × String) → Except EnvParseError (List (String × String))
  | 0, _, _, _, _, _, result => .ok result
  | _ + 1, _, [], _, _, _, result => .ok result
  | fuel + 1, .scan_var_name, t, pos, var_name, var_content, result =>
    match find_assignment pos true t with
    | some (name, end_pos) =>
      env_run lines fuel .scan_value (t.drop (end_pos - pos)) end_pos (some name)
        var_content result
    | Option.none =>
      match comment_match_at t with
      | some k => env_run lines fuel .scan_var_name (t.drop k) (pos + k) var_name var_content result
      | Option.none =>
        if (t.takeWhile is_ws_semi).length = t.length then .ok result
        else
          let skip := (t.takeWhile is_space_char).length
          let t2 := t.drop skip
          if t2.isEmpty then .ok result
          else
            match varname_match_at t2 with
            | some k => .error (mk_parse_error "Expected assignment operator" (pos + skip + k) lines)
            | Option.none => .error (mk_parse_error "Expected variable assignment" (pos + skip) lines)
  | fuel + 1, .scan_value, t, pos, var_name, var_content, result =>
    let piece := t.takeWhile (fun c => !is_unquoted_term c)
    match t.dropWhile (fun c => !is_unquoted_term c) with
    | [] => .ok result
    | term :: r2 =>
      let pos1 := pos + piece.length
      let content1 := var_content ++ [(⟨piece⟩ : String)]
      if is_space_char term || term = ';' then
        match var_name with
        | Option.none => .ok result
        | some nm =>
          env_run lines fuel .scan_var_name (term :: r2) pos1 Option.none []
            (dict_insert result nm (String.join content1))
      else if term = '\'' then
        env_run lines fuel .in_single_quote r2 (pos1 + 1) var_name content1 result
      else if term = '"' then
        env_run lines fuel .in_double_quote r2 (pos1 + 1) var_name content1 result
      else
        let run := (term :: r2).takeWhile (· = '\\')
        let r3 := (term :: r2).dropWhile (· = '\\')
        let n := run.length
        let content2 := content1 ++ [(⟨List.replicate (n / 2) '\\'⟩ : String)]
        if n % 2 = 1 then
          match r3 with
          | [] => env_run lines fuel .scan_value r3 (pos1 + n) var_name content2 result
          | c :: r4 =>
            if c = '\n' then
              env_run lines fuel .scan_value r4 (pos1 + n + 1) var_name content2 result
            else
              env_run lines fuel .scan_value r4 (pos1 + n + 1) var_name
                (content2 ++ [(⟨[c]⟩ : String)]) result
        else env_run lines fuel .scan_value r3 (pos1 + n) var_name content2 result
  | fuel + 1, .in_single_quote, t, pos, var_name, var_content, result =>
    let piece := t.takeWhile (· ≠ '\'')
    match t.dropWhile (· ≠ '\'') with
    | [] => .error (mk_parse_error "Unmatched single quote" pos lines)
    | _ :: r2 =>
      env_run lines fuel .scan_value r2 (pos + piece.length + 1) var_name
        (var_content ++ [(⟨piece⟩ : String)]) result
  | fuel + 1, .in_double_quote, t, pos, var_name, var_content, result =>
    let piece := t.takeWhile (fun c => c ≠ '"' && c ≠ '\\')
    match t.dropWhile (fun c => c ≠ '"' && c ≠ '\\') with
    | [] => .error (mk_parse_error "Unmatched double quote" pos lines)
    | '"' :: r2 =>
      env_run lines fuel .scan_value r2 (pos + piece.length + 1) var_name
        (var_content ++ [(⟨piece⟩ : String)]) result
    | r1 =>
      let run := r1.takeWhile (· = '\\')
      let r3 := r1.dropWhile (· = '\\')
      let n := run.length
      let content2 := var_content ++ [(⟨piece⟩ : String), (⟨List.replicate (n / 2) '\\'⟩ : String)]
      let pos2 := pos + piece.length + n
      if n % 2 = 1 then
        match r3 with
        | [] => env_run lines fuel .in_double_quote r3 pos2 var_name content2 result
        | c :: r4 =>
          if c = '\n' then
            env_run lines fuel .in_double_quote r4 (pos2 + 1) var_name content2 result
          else if c = '"' then
            env_run lines fuel .in_double_quote r4 (pos2 + 1) var_name
              (content2 ++ [(⟨[c]⟩ : String)]) result
          else
            env_run lines fuel .in_double_quote r4 (pos2 + 1) var_name
              (content2 ++ [(⟨['\\', c]⟩ : String)]) result
      else env_run lines fuel .in_double_quote r3 pos2 var_name content2 result

/-- `parse_env_file(content_lines)` from `src/dj_typed_settings/env.py`
(lines 98-174): join the lines, append a final newline, and run the
state machine from `SCAN_VAR_NAME`.  Successful parses return the
ordered name-to-value mapping; parse errors carry the 1-indexed
line/position location. -/
def parse_env_file (content_lines : List String) : Except EnvParseError (List (String × String)) :=
  let content := (String.join content_lines).data ++ ['\n']
  env_run content_lines (2 * content.length + 2) .scan_var_name content 0 Option.none [] []

/-! ## Claims about `validate_type` and `cast_to_type` -/

/-- C4: the claim states that for `int | str` (equivalently
`str | int`) `validate_type` accepts integers and digit-only strings
but rejects every non-digit string with a message containing
`must be a valid integer string`.  The source has no such check: any
string is an instance of `str`, so the union branch accepts it, as the
first two conjuncts show at the failing input `"s"`; the `1.5` part of
the claim does hold (third conjunct).  The repository's own tests
(`tests/validator/test_validate_type.py`, `test_validate_type_union_optional`
and `test_validate_str_int_union_checks_digits`) assert the claimed
rejection, so the source contradicts its own test suite here. -/
theorem c4_union_int_str_accepts_any_string :
    validate_type (.str "s") (.union [.prim .intC, .prim .strC]) "field" = .ok () ∧
    validate_type (.str "s") (.union [.prim .strC, .prim .intC]) "field" = .ok () ∧
    validate_type (.float "1.5") (.union [.prim .intC, .prim .strC]) "field" =
      .error "If 'field' is specified, it must be a int or str, but got float" :=
  ⟨rfl, rfl, rfl⟩

/-- C5 (counterexample): the claim states that `validate_type` fails
for every boolean checked against the primitive type `int`; in the
source the check is a plain `isinstance`, and Python's `bool` is a
subclass of `int`, so `True` passes. -/
theorem c5_counterexample :
    validate_type (.bool true) (.prim .intC) "field" = .ok () := rfl

/-- C5 (amended): a boolean value always passes `validate_type`
against the primitive type `int`: the code performs a plain
`isinstance` check and `bool` subclasses `int`, so `True`/`False` do
silently pass a numeric field. -/
theorem c5_amended_bool_passes_int (b : Bool) (f : String) :
    validate_type (.bool b) (.prim .intC) f = .ok () := rfl

/-- C6 (counterexample): the claim states that a fixed-arity tuple
descriptor `Tuple[T1,...,Tn]` enforces the length (with a
`must have N items, got M` error) and each position's type; the source
accepts a 2-tuple against `Tuple[str, str, str]` and a mistyped item
against `Tuple[str]` without any error. -/
theorem c6_counterexample :
    validate_type (.tuple [.str "a", .str "b"])
        (.tupleOf [.prim .strC, .prim .strC, .prim .strC]) "field" = .ok () ∧
    validate_type (.tuple [.int 1]) (.tupleOf [.prim .strC]) "field" = .ok () :=
  ⟨rfl, rfl⟩

/-- C6 (amended): for a tuple type hint of any arity, `validate_type`
only checks that the value is a tuple, failing with
`'{field}' must be tuple, got {type}` otherwise; tuple items and arity
are never validated (the source comments that tuple hints are not
checked strictly). -/
theorem c6_amended_tuple_only_instance_check (v : PyValue) (args : List TypeHint) (f : String) :
    validate_type v (.tupleOf args) f =
      match v with
      | .tuple _ => .ok ()
      | _ => .error ("'" ++ f ++ "' must be tuple, got " ++ v.type_name) := by
  cases v <;> rfl

/-- C10: a type hint that is none of a union, a `list`/`tuple`/`dict`
generic, `Any`, or a plain class — for example `set[str]` or
`Literal[..]` — falls through every branch of `validate_type`, so
every value is accepted for such a field. -/
theorem c10_fallthrough_hint_accepts_everything (v : PyValue) (s f : String) :
    validate_type v (.other s) f = .ok () := rfl

/-- C7: `cast_to_type` never raises — it is a total function into
`PyValue`, always yielding the coerced or the original value — and on
the claim's examples: `"True"` against `bool` coerces to `True`,
`"maybe"` against `bool` is returned unchanged (not a recognised
literal), and `"1,2,3"` against `list[int]` coerces to `[1, 2, 3]`. -/
theorem c7_cast_to_type_examples :
    cast_to_type (.str "True") (.prim .boolC) = .bool true ∧
    cast_to_type (.str "maybe") (.prim .boolC) = .str "maybe" ∧
    cast_to_type (.str "1,2,3") (.listOf [.prim .intC]) = .list [.int 1, .int 2, .int 3] := by
  refine ⟨?_, ?_, ?_⟩
  · simp only [cast_to_type]
    rfl
  · simp only [cast_to_type]
    rfl
  · simp only [cast_to_type]
    rw [show split_pieces "," "1,2,3" = ["1", "2", "3"] from rfl]
    simp only [cast_list_items, cast_to_type]
    rfl

/-! ## Claims about the record walker -/

/-- Looking up a key different from a mapping's first entry skips that
entry. -/
theorem lookup_cons_ne {a k : String} {w : PyValue} {l : List (String × PyValue)}
    (h : k ≠ a) : ((k, w) :: l).lookup a = l.lookup a := by
  have hb : (a == k) = false := beq_eq_false_iff_ne.mpr (Ne.symm h)
  simp [List.lookup_cons, hb]

/-- A required, non-ignored field absent from the data always
contributes its `Missing required setting` message to the walker's
error list, whatever happens for the other fields. -/
theorem collect_errors_mem_missing (env : NestedSchemas) (data : List (String × PyValue))
    (ignore : List String) (schema : Schema) (f : SchemaField)
    (hf : f ∈ schema) (hreq : f.hasDefault = false) (hni : f.name ∉ ignore)
    (hnd : data.lookup f.name = Option.none) :
    ("Missing required setting: " ++ f.name) ∈ collect_errors env data ignore schema := by
  induction schema with
  | nil => cases hf
  | cons g rest ih =>
    rcases List.mem_cons.mp hf with rfl | hf'
    · simp [collect_errors, hni, hnd, hreq]
    · have hrec := ih hf'
      by_cases hg : g.name ∈ ignore
      · simpa [collect_errors, hg] using hrec
      · rcases hlg : data.lookup g.name with _ | v
        · by_cases hd : g.hasDefault <;> simp [collect_errors, hg, hlg, hd, hrec]
        · cases hv : validate_type v g.hint g.name with
          | error e => simp [collect_errors, hg, hlg, hv, hrec]
          | ok u => simp [collect_errors, hg, hlg, hv, hrec]

/-- When the error list is non-empty the walker raises the single
aggregate `ValueError` joining it with newlines. -/
theorem validate_raises_joined (env : NestedSchemas) (data : List (String × PyValue))
    (schema : Schema) (ignore : List String)
    (hne : collect_errors env data ignore schema ≠ []) :
    (validate_data_against_schema env data schema ignore).1 =
      .error (String.intercalate "\n" (collect_errors env data ignore schema)) := by
  simp [validate_data_against_schema, List.isEmpty_iff, hne]

/-- Distinct field names give distinct `Missing required setting`
messages. -/
theorem missing_message_injective {a b : String} (h : a ≠ b) :
    ("Missing required setting: " ++ a) ≠ ("Missing required setting: " ++ b) := by
  intro hc
  have hd : "Missing required setting: ".data ++ a.data =
      "Missing required setting: ".data ++ b.data := by
    have := congrArg String.data hc
    simpa [String.data_append] using this
  exact h (String.ext (List.append_cancel_left hd))

/-- C2: omitting two (or more) required, non-ignored fields yields one
distinct `Missing required setting: {field}` message per omitted field
— no field's processing is skipped because another failed — and the
call raises them together as one aggregate error whose message joins
the whole ordered error list, never one at a time mid-pass. -/
theorem c2_missing_required_aggregated (env : NestedSchemas) (schema : Schema)
    (data : List (String × PyValue)) (ignore : List String) (f g : SchemaField)
    (hf : f ∈ schema) (hg : g ∈ schema)
    (hreqf : f.hasDefault = false) (hreqg : g.hasDefault = false)
    (hmf : data.lookup f.name = Option.none) (hmg : data.lookup g.name = Option.none)
    (hif : f.name ∉ ignore) (hig : g.name ∉ ignore)
    (hne : f.name ≠ g.name) :
    ("Missing required setting: " ++ f.name) ∈ collect_errors env data ignore schema ∧
    ("Missing required setting: " ++ g.name) ∈ collect_errors env data ignore schema ∧
    ("Missing required setting: " ++ f.name) ≠ ("Missing required setting: " ++ g.name) ∧
    (validate_data_against_schema env data schema ignore).1 =
      .error (String.intercalate "\n" (collect_errors env data ignore schema)) := by
  have h1 := collect_errors_mem_missing env data ignore schema f hf hreqf hif hmf
  have h2 := collect_errors_mem_missing env data ignore schema g hg hreqg hig hmg
  exact ⟨h1, h2, missing_message_injective hne,
    validate_raises_joined env data schema ignore (List.ne_nil_of_mem h1)⟩

/-- C2 witness: a schema with two required fields `A` and `B`, both
omitted from the data. -/
theorem c2_missing_required_aggregated_witness :
    ("Missing required setting: " ++ "A") ∈
      collect_errors ⟨[], [], [], []⟩ [("C", .int 1)] []
        [⟨"A", .prim .strC, false⟩, ⟨"B", .prim .intC, false⟩, ⟨"C", .prim .intC, false⟩] ∧
    ("Missing required setting: " ++ "B") ∈
      collect_errors ⟨[], [], [], []⟩ [("C", .int 1)] []
        [⟨"A", .prim .strC, false⟩, ⟨"B", .prim .intC, false⟩, ⟨"C", .prim .intC, false⟩] ∧
    ("Missing required setting: " ++ "A") ≠ ("Missing required setting: " ++ "B") ∧
    (validate_data_against_schema ⟨[], [], [], []⟩ [("C", .int 1)]
        [⟨"A", .prim .strC, false⟩, ⟨"B", .prim .intC, false⟩, ⟨"C", .prim .intC, false⟩] []).1 =
      .error (String.intercalate "\n"
        (collect_errors ⟨[], [], [], []⟩ [("C", .int 1)] []
          [⟨"A", .prim .strC, false⟩, ⟨"B", .prim .intC, false⟩, ⟨"C", .prim .intC, false⟩])) :=
  c2_missing_required_aggregated ⟨[], [], [], []⟩
    [⟨"A", .prim .strC, false⟩, ⟨"B", .prim .intC, false⟩, ⟨"C", .prim .intC, false⟩]
    [("C", .int 1)] [] ⟨"A", .prim .strC, false⟩ ⟨"B", .prim .intC, false⟩
    (by simp) (by simp) rfl rfl rfl rfl (by simp) (by simp) (by decide)

/-- C1 (counterexample): for the schema with fields `name : str`
(required, no default) and `meta : int` (with a default), the mapping
`{name: "x", meta: "bad"}` supplies the only required field with a
value of its declared type (second conjunct) and contains no key
outside the schema's field set (third conjunct), yet
`validate_data_against_schema` raises: a supplied *optional* field with
a value of the wrong type fails validation, so the claim's hypotheses
do not guarantee success. -/
theorem c1_counterexample :
    (validate_data_against_schema ⟨[], [], [], []⟩
        [("name", .str "x"), ("meta", .str "bad")]
        [⟨"name", .prim .strC, false⟩, ⟨"meta", .prim .intC, true⟩] []).1 =
      .error "'meta' must be int, got str" ∧
    validate_type (.str "x") (.prim .strC) "name" = .ok () ∧
    ([("name", PyValue.str "x"), ("meta", PyValue.str "bad")].map Prod.fst).all
      (fun k => (([⟨"name", .prim .strC, false⟩, ⟨"meta", .prim .intC, true⟩] : Schema).map
        SchemaField.name).contains k) = true :=
  ⟨rfl, rfl, rfl⟩

/-- Under the amended hypotheses no schema field contributes an error,
so the walker's error list is empty. -/
theorem collect_errors_eq_nil (env : NestedSchemas) (data : List (String × PyValue))
    (schema : Schema)
    (hreq : ∀ fld ∈ schema, fld.hasDefault = false → (data.lookup fld.name).isSome)
    (htype : ∀ fld ∈ schema, ∀ v, data.lookup fld.name = some v →
      validate_type v fld.hint fld.name = .ok ())
    (hnested : ∀ fld ∈ schema, ∀ v, data.lookup fld.name = some v →
      nested_errors env fld.name v [] = []) :
    collect_errors env data [] schema = [] := by
  induction schema with
  | nil => rfl
  | cons g rest ih =>
    have hg : g ∈ g :: rest := List.mem_cons_self g rest
    have htail := ih (fun fld h => hreq fld (List.mem_cons_of_mem _ h))
      (fun fld h => htype fld (List.mem_cons_of_mem _ h))
      (fun fld h => hnested fld (List.mem_cons_of_mem _ h))
    rcases hlg : data.lookup g.name with _ | v
    · have hd : g.hasDefault = true := by
        by_contra hc
        have hs := hreq g hg (by simpa using hc)
        rw [hlg] at hs
        simp at hs
      simp [collect_errors, hlg, hd, htail]
    · simp [collect_errors, hlg, htype g hg v hlg, hnested g hg v hlg, htail]

/-- C1 (amended): a configuration mapping whose keys all belong to the
schema's field set, which supplies every required (no-default) field,
whose every supplied value passes `validate_type` against its field's
declared type, and whose supplied values produce no nested
special-case errors (`DATABASES`/`CACHES`/`TEMPLATES`/
`AUTH_PASSWORD_VALIDATORS` entries, vacuous when those names are not
supplied) validates successfully: `validate_data_against_schema`
returns normally. -/
theorem c1_amended_valid_config_passes (env : NestedSchemas) (schema : Schema)
    (data : List (String × PyValue))
    (hkeys : ∀ p ∈ data, p.1 ∈ schema.map SchemaField.name)
    (hreq : ∀ fld ∈ schema, fld.hasDefault = false → (data.lookup fld.name).isSome)
    (htype : ∀ fld ∈ schema, ∀ v, data.lookup fld.name = some v →
      validate_type v fld.hint fld.name = .ok ())
    (hnested : ∀ fld ∈ schema, ∀ v, data.lookup fld.name = some v →
      nested_errors env fld.name v [] = []) :
    (validate_data_against_schema env data schema []).1 = .ok () := by
  have h := collect_errors_eq_nil env data schema hreq htype hnested
  simp [validate_data_against_schema, h]

/-- C1 witness for the amended statement: the required field supplied
with a well-typed value, the optional field omitted. -/
theorem c1_amended_valid_config_passes_witness :
    (validate_data_against_schema ⟨[], [], [], []⟩ [("name", .str "x")]
        [⟨"name", .prim .strC, false⟩, ⟨"meta", .prim .intC, true⟩] []).1 = .ok () := by
  apply c1_amended_valid_config_passes
  · intro p hp
    simp only [List.mem_singleton] at hp
    subst hp
    simp
  · intro fld hfld hr
    simp only [List.mem_cons, List.not_mem_nil, or_false] at hfld
    rcases hfld with rfl | rfl
    · decide
    · simp at hr
  · intro fld hfld v hv
    simp only [List.mem_cons, List.not_mem_nil, or_false] at hfld
    rcases hfld with rfl | rfl
    · rw [show List.lookup "name" [("name", PyValue.str "x")] = some (PyValue.str "x")
        from rfl] at hv
      cases hv
      rfl
    · rw [show List.lookup "meta" [("name", PyValue.str "x")] = Option.none from rfl] at hv
      cases hv
  · intro fld hfld v hv
    simp only [List.mem_cons, List.not_mem_nil, or_false] at hfld
    rcases hfld with rfl | rfl
    · rw [show List.lookup "name" [("name", PyValue.str "x")] = some (PyValue.str "x")
        from rfl] at hv
      cases hv
      rfl
    · rw [show List.lookup "meta" [("name", PyValue.str "x")] = Option.none from rfl] at hv
      cases hv

/-- A non-ignored unknown key in a nested config always contributes its
`Invalid key` message to the invalid-key loop's output. -/
theorem invalid_key_errors_mem (entry_path label : String) (vk ignore : List String)
    (config : List (String × PyValue)) (key : String) (v : PyValue)
    (hmem : (key, v) ∈ config) (hig : (entry_path ++ "." ++ key) ∉ ignore)
    (hunk : key ∉ vk) :
    invalid_key_message label key vk ∈ invalid_key_errors entry_path label vk ignore config := by
  induction config with
  | nil => cases hmem
  | cons p rest ih =>
    obtain ⟨pk, pv⟩ := p
    rcases List.mem_cons.mp hmem with heq | h'
    · obtain ⟨rfl, rfl⟩ := Prod.mk.injEq .. ▸ heq
      simp [invalid_key_errors, hig, hunk]
    · have hrec := ih h'
      by_cases h1 : (entry_path ++ "." ++ pk) ∈ ignore
      · simpa [invalid_key_errors, h1] using hrec
      · by_cases h2 : pk ∈ vk <;> simp [invalid_key_errors, h1, h2, hrec]

/-- `get_close_matches` with `n = 3` returns at most 3 suggestions. -/
theorem get_close_matches_length_le (word : String) (possibilities : List String)
    (cutoff : Rat) : (get_close_matches word possibilities 3 cutoff).length ≤ 3 := by
  simp only [get_close_matches, List.length_map, List.length_take]
  exact min_le_left _ _

/-- A non-ignored key absent from the nested schema's field set always
produces the hard `Invalid key` error in `validate_nested_database`. -/
theorem validate_nested_database_mem_invalid (db_schema : Schema) (db_name key : String)
    (v : PyValue) (db_config : List (String × PyValue)) (ignore : List String)
    (hmem : (key, v) ∈ db_config)
    (hig1 : ("DATABASES." ++ db_name) ∉ ignore)
    (hig2 : ("DATABASES." ++ db_name ++ "." ++ key) ∉ ignore)
    (hunk : key ∉ valid_keys_of db_schema) :
    invalid_key_message ("DATABASES['" ++ db_name ++ "']") key (valid_keys_of db_schema) ∈
      validate_nested_database db_schema db_name db_config ignore := by
  unfold validate_nested_database validate_nested_config
  rw [if_neg hig1]
  exact List.mem_append_left _
    (invalid_key_errors_mem _ _ _ _ _ key v hmem hig2 hunk)

/-- Adding a top-level key that is not a schema field name never
changes the walker's error list: the field loop looks data up only by
field names, and the unknown-key loop never appends to the errors. -/
theorem collect_errors_cons_unknown (env : NestedSchemas) (k : String) (w : PyValue)
    (data : List (String × PyValue)) (ignore : List String) (schema : Schema)
    (hk : k ∉ schema.map SchemaField.name) :
    collect_errors env ((k, w) :: data) ignore schema =
      collect_errors env data ignore schema := by
  induction schema with
  | nil => rfl
  | cons g rest ih =>
    have hkg : k ≠ g.name := by
      intro h
      exact hk (by simp [h])
    have htail : k ∉ rest.map SchemaField.name := by
      intro h
      exact hk (by simp [h])
    have hlookup : ((k, w) :: data).lookup g.name = data.lookup g.name :=
      lookup_cons_ne hkg
    simp only [collect_errors, hlookup, ih htail]

/-- An unknown, non-ignored, non-underscore top-level key with a close
fuzzy match among the schema's field names is logged with the
`Unknown setting` advisory message. -/
theorem collect_logs_mem_unknown (valid ignore : List String)
    (data : List (String × PyValue)) (k : String) (w : PyValue)
    (h1 : starts_with_underscore k = false) (h2 : k ∉ ignore) (h3 : k ∉ valid)
    (h4 : k ∉ common_unvalidated_settings)
    (h5 : get_close_matches k valid 3 (3 / 5) ≠ []) :
    unknown_setting_message k (get_close_matches k valid 3 (3 / 5)) ∈
      collect_logs valid ignore ((k, w) :: data) := by
  rcases hgc : get_close_matches k valid 3 (3 / 5) with _ | ⟨s, t⟩
  · exact absurd hgc h5
  · simp [collect_logs, h1, h2, h3, h4, hgc]

/-- C3: inside a nested record entry (here a database configuration,
the cited symbol; the cache/template/auth walkers share the same body
via `validate_nested_config`), every non-ignored key outside the
schema's field set produces the hard `Invalid key ... ` error, whose
suggestions are capped at 3 with similarity cutoff 0.6 (first two
conjuncts; `invalid_key_message` appends `Did you mean` when there are
suggestions and the sorted valid keys otherwise); the same unknown key
at the top level is never added to the raised error list — the error
list is unchanged by its presence (third conjunct) — and is at most
logged, which happens exactly when a close fuzzy match to a known
field exists (fourth conjunct). -/
theorem c3_nested_hard_error_top_level_advisory
    (db_schema : Schema) (db_name key : String) (v : PyValue)
    (db_config : List (String × PyValue)) (ignore : List String)
    (env : NestedSchemas) (schema : Schema) (data : List (String × PyValue))
    (k : String) (w : PyValue)
    (hmem : (key, v) ∈ db_config)
    (hig1 : ("DATABASES." ++ db_name) ∉ ignore)
    (hig2 : ("DATABASES." ++ db_name ++ "." ++ key) ∉ ignore)
    (hunk : key ∉ valid_keys_of db_schema)
    (hk : k ∉ schema.map SchemaField.name) :
    invalid_key_message ("DATABASES['" ++ db_name ++ "']") key (valid_keys_of db_schema) ∈
      validate_nested_database db_schema db_name db_config ignore ∧
    (get_close_matches key (valid_keys_of db_schema) 3 (3 / 5)).length ≤ 3 ∧
    collect_errors env ((k, w) :: data) ignore schema =
      collect_errors env data ignore schema ∧
    (starts_with_underscore k = false → k ∉ ignore → k ∉ common_unvalidated_settings →
      get_close_matches k (valid_keys_of schema) 3 (3 / 5) ≠ [] →
      unknown_setting_message k (get_close_matches k (valid_keys_of schema) 3 (3 / 5)) ∈
        (validate_data_against_schema env ((k, w) :: data) schema ignore).2) := by
  refine ⟨validate_nested_database_mem_invalid db_schema db_name key v db_config ignore
      hmem hig1 hig2 hunk,
    get_close_matches_length_le _ _ _,
    collect_errors_cons_unknown env k w data ignore schema hk, ?_⟩
  intro h1 h2 h4 h5
  have h3 : k ∉ valid_keys_of schema := by
    intro hmem'
    exact hk ((List.mem_dedup).mp hmem')
  exact collect_logs_mem_unknown (valid_keys_of schema) ignore data k w h1 h2 h3 h4 h5

/-- C3 witness: the misspelled key `NAEM` inside
`DATABASES['default']` against a nested schema declaring `NAME`, and
the misspelled top-level key `SCRET_KEY` against a schema declaring
`SECRET_KEY`. -/
theorem c3_nested_hard_error_top_level_advisory_witness :
    invalid_key_message ("DATABASES['" ++ "default" ++ "']") "NAEM"
        (valid_keys_of [⟨"NAME", .prim .strC, false⟩]) ∈
      validate_nested_database [⟨"NAME", .prim .strC, false⟩] "default"
        [("NAEM", .str "x")] [] ∧
    (get_close_matches "NAEM" (valid_keys_of [⟨"NAME", .prim .strC, false⟩]) 3 (3 / 5)).length ≤
      3 ∧
    collect_errors ⟨[], [], [], []⟩ [("SCRET_KEY", .str "y"), ("SECRET_KEY", .str "s")] []
        [⟨"SECRET_KEY", .prim .strC, false⟩] =
      collect_errors ⟨[], [], [], []⟩ [("SECRET_KEY", .str "s")] []
        [⟨"SECRET_KEY", .prim .strC, false⟩] ∧
    (starts_with_underscore "SCRET_KEY" = false → "SCRET_KEY" ∉ ([] : List String) →
      "SCRET_KEY" ∉ common_unvalidated_settings →
      get_close_matches "SCRET_KEY" (valid_keys_of [⟨"SECRET_KEY", .prim .strC, false⟩]) 3
        (3 / 5) ≠ [] →
      unknown_setting_message "SCRET_KEY"
          (get_close_matches "SCRET_KEY" (valid_keys_of [⟨"SECRET_KEY", .prim .strC, false⟩]) 3
            (3 / 5)) ∈
        (validate_data_against_schema ⟨[], [], [], []⟩
            [("SCRET_KEY", .str "y"), ("SECRET_KEY", .str "s")]
            [⟨"SECRET_KEY", .prim .strC, false⟩] []).2) :=
  c3_nested_hard_error_top_level_advisory [⟨"NAME", .prim .strC, false⟩] "default" "NAEM"
    (.str "x") [("NAEM", .str "x")] [] ⟨[], [], [], []⟩
    [⟨"SECRET_KEY", .prim .strC, false⟩] [("SECRET_KEY", .str "s")] "SCRET_KEY" (.str "y")
    (List.mem_cons_self _ _) (by simp) (by simp) (by decide) (by decide)

/-! ## Claims about the env-file parser -/

/-- A run of `n` backslashes as a string. -/
def bs_str (n : Nat) : String := ⟨List.replicate n '\\'⟩

theorem takeWhile_replicate_append (p : Char → Bool) (c : Char) (hp : p c = true) :
    ∀ (n : Nat) (t : List Char),
      (List.replicate n c ++ t).takeWhile p = List.replicate n c ++ t.takeWhile p := by
  intro n
  induction n with
  | zero => simp
  | succ m ih => intro t; simp [List.replicate_succ, List.takeWhile_cons, hp, ih]

theorem dropWhile_replicate_append (p : Char → Bool) (c : Char) (hp : p c = true) :
    ∀ (n : Nat) (t : List Char),
      (List.replicate n c ++ t).dropWhile p = t.dropWhile p := by
  intro n
  induction n with
  | zero => simp
  | succ m ih => intro t; simp [List.replicate_succ, List.dropWhile_cons, hp, ih]

theorem string_join_two (s : String) : String.join ["", s, ""] = s := by
  apply String.ext
  simp [String.join, String.data_append]

theorem string_join_three (s t : String) : String.join ["", s, t, ""] = s ++ t := by
  apply String.ext
  simp [String.join, String.data_append]

theorem string_join_cat3 (s t u : String) : String.join [s, t, u] = s ++ t ++ u := by
  apply String.ext
  simp [String.join, String.data_append]

/-- One machine step: scanning for an assignment on `K=...` finds the
name `K` and enters `SCAN_VALUE` two characters later. -/
theorem env_step_name_K (lines : List String) (f : Nat) (mid : List Char) :
    env_run lines (f + 1) .scan_var_name ('K' :: '=' :: mid) 0 Option.none [] [] =
      env_run lines f .scan_value mid 2 (some "K") [] [] := by
  simp [env_run, find_assignment, assign_match_at, export_split, ident_assign_match,
    ident_take, is_ws_semi, is_space_char, is_ident_start, is_word_char, comment_match_at]

/-- One machine step: a whitespace terminator commits the pending
assignment without consuming the terminator. -/
theorem env_step_commit (lines : List String) (f p : Nat) (c : Char) (rest : List Char)
    (k : String) (vc : List String) (res : List (String × String))
    (hc : is_space_char c = true) :
    env_run lines (f + 1) .scan_value (c :: rest) p (some k) vc res =
      env_run lines f .scan_var_name (c :: rest) p Option.none []
        (dict_insert res k (String.join (vc ++ [""]))) := by
  have ht : is_unquoted_term c = true := by simp [is_unquoted_term, hc]
  simp [env_run, ht, hc]

/-- One machine step: an even backslash run of length `M + 1` emits
half the run and consumes no following character. -/
theorem env_step_bs_even (lines : List String) (f p M : Nat) (vc : List String)
    (res : List (String × String)) (hM : (M + 1) % 2 = 0) :
    env_run lines (f + 1) .scan_value (List.replicate (M + 1) '\\' ++ [' ', '\n', '\n']) p
        (some "K") vc res =
      env_run lines f .scan_value [' ', '\n', '\n'] (p + (M + 1)) (some "K")
        (vc ++ ["", (⟨List.replicate ((M + 1) / 2) '\\'⟩ : String)]) res := by
  rw [show List.replicate (M + 1) '\\' ++ [' ', '\n', '\n'] =
    '\\' :: (List.replicate M '\\' ++ [' ', '\n', '\n']) by simp [List.replicate_succ]]
  simp [env_run, is_unquoted_term, is_space_char, hM,
    takeWhile_replicate_append (· = '\\') '\\' (by decide),
    dropWhile_replicate_append (· = '\\') '\\' (by decide), List.takeWhile_cons,
    List.dropWhile_cons]

/-- One machine step: an odd backslash run of length `M + 1` before a
space emits half the run and then the escaped space itself. -/
theorem env_step_bs_odd (lines : List String) (f p M : Nat) (vc : List String)
    (res : List (String × String)) (hM : (M + 1) % 2 = 1) :
    env_run lines (f + 1) .scan_value (List.replicate (M + 1) '\\' ++ [' ', '\n', '\n']) p
        (some "K") vc res =
      env_run lines f .scan_value ['\n', '\n'] (p + (M + 1) + 1) (some "K")
        (vc ++ ["", (⟨List.replicate ((M + 1) / 2) '\\'⟩ : String), " "]) res := by
  rw [show List.replicate (M + 1) '\\' ++ [' ', '\n', '\n'] =
    '\\' :: (List.replicate M '\\' ++ [' ', '\n', '\n']) by simp [List.replicate_succ]]
  simp [env_run, is_unquoted_term, is_space_char, hM,
    takeWhile_replicate_append (· = '\\') '\\' (by decide),
    dropWhile_replicate_append (· = '\\') '\\' (by decide), List.takeWhile_cons,
    List.dropWhile_cons]

/-- One machine step: an odd backslash run before a newline emits half
the run and swallows the newline (line continuation). -/
theorem env_step_a_bs_odd_nl (lines : List String) (f p M : Nat) (vc : List String)
    (res : List (String × String)) (hM : (M + 1) % 2 = 1) :
    env_run lines (f + 1) .scan_value
        ('a' :: (List.replicate (M + 1) '\\' ++ ['\n', 'b', '\n', '\n'])) p (some "K") vc res =
      env_run lines f .scan_value ['b', '\n', '\n'] (p + 1 + (M + 1) + 1) (some "K")
        (vc ++ ["a", (⟨List.replicate ((M + 1) / 2) '\\'⟩ : String)]) res := by
  rw [show List.replicate (M + 1) '\\' ++ ['\n', 'b', '\n', '\n'] =
    '\\' :: (List.replicate M '\\' ++ ['\n', 'b', '\n', '\n']) by simp [List.replicate_succ]]
  simp [env_run, is_unquoted_term, is_space_char, hM,
    takeWhile_replicate_append (· = '\\') '\\' (by decide),
    dropWhile_replicate_append (· = '\\') '\\' (by decide), List.takeWhile_cons,
    List.dropWhile_cons]

theorem env_step_b_commit (lines : List String) (f p : Nat) (k : String) (vc : List String)
    (res : List (String × String)) :
    env_run lines (f + 1) .scan_value ['b', '\n', '\n'] p (some k) vc res =
      env_run lines f .scan_var_name ['\n', '\n'] (p + 1) Option.none []
        (dict_insert res k (String.join (vc ++ ["b"]))) := by
  simp [env_run, is_unquoted_term, is_space_char]

theorem env_done_space (lines : List String) (f p : Nat) (res : List (String × String)) :
    env_run lines (f + 1) .scan_var_name [' ', '\n', '\n'] p Option.none [] res = .ok res :=
  rfl

theorem env_done_nl (lines : List String) (f p : Nat) (res : List (String × String)) :
    env_run lines (f + 1) .scan_var_name ['\n', '\n'] p Option.none [] res = .ok res :=
  rfl

/-- An unquoted backslash run of any length `N` resolves to
`N / 2` literal backslashes, the odd leftover escaping the next
character (here a space, which is kept). -/
theorem env_parse_backslash_run (N : Nat) :
    parse_env_file ["K=" ++ bs_str N ++ " \n"] =
      .ok [("K", bs_str (N / 2) ++ (if N % 2 = 1 then " " else ""))] := by
  have hcontent : (String.join ["K=" ++ bs_str N ++ " \n"]).data ++ ['\n'] =
      'K' :: '=' :: (List.replicate N '\\' ++ [' ', '\n', '\n']) := by
    simp [String.join, String.data_append, bs_str]
  unfold parse_env_file
  rw [hcontent]
  have hlen : ('K' :: '=' :: (List.replicate N '\\' ++ [' ', '\n', '\n'])).length = N + 5 := by
    simp
  simp only [hlen]
  obtain ⟨f, hf⟩ : ∃ f, 2 * (N + 5) + 2 = f + 1 + 1 + 1 + 1 := ⟨2 * N + 8, by omega⟩
  rw [hf]
  rw [env_step_name_K]
  rcases N with _ | M
  · rw [show List.replicate 0 '\\' ++ [' ', '\n', '\n'] = [' ', '\n', '\n'] from rfl]
    rw [env_step_commit _ _ _ _ _ _ _ _ (by decide), env_done_space]
    simp [dict_insert, bs_str]
    apply String.ext
    simp [String.join, String.data_append]
  · rcases Nat.mod_two_eq_zero_or_one (M + 1) with hM | hM
    · rw [env_step_bs_even _ _ _ _ _ _ hM, env_step_commit _ _ _ _ _ _ _ _ (by decide),
        env_done_space]
      simp [dict_insert, hM]
      rw [string_join_two]
      rfl
    · rw [env_step_bs_odd _ _ _ _ _ _ hM, env_step_commit _ _ _ _ _ _ _ _ (by decide),
        env_done_nl]
      simp [dict_insert, hM]
      rw [string_join_three]
      rfl

/-- An odd backslash run before a newline swallows the newline, so
lines ending in a single (or any odd) backslash concatenate. -/
theorem env_parse_line_continuation (m : Nat) :
    parse_env_file ["K=a" ++ bs_str (2 * m + 1) ++ "\n", "b\n"] =
      .ok [("K", "a" ++ bs_str m ++ "b")] := by
  have hcontent : (String.join ["K=a" ++ bs_str (2 * m + 1) ++ "\n", "b\n"]).data ++ ['\n'] =
      'K' :: '=' :: 'a' :: (List.replicate (2 * m + 1) '\\' ++ ['\n', 'b', '\n', '\n']) := by
    simp [String.join, String.data_append, bs_str]
  unfold parse_env_file
  rw [hcontent]
  have hlen : ('K' :: '=' :: 'a' ::
      (List.replicate (2 * m + 1) '\\' ++ ['\n', 'b', '\n', '\n'])).length = 2 * m + 8 := by
    simp
  simp only [hlen]
  obtain ⟨f, hf⟩ : ∃ f, 2 * (2 * m + 8) + 2 = f + 1 + 1 + 1 + 1 := ⟨4 * m + 14, by omega⟩
  rw [hf]
  rw [env_step_name_K]
  rw [show (2 : Nat) * m + 1 = (2 * m) + 1 from rfl]
  rw [env_step_a_bs_odd_nl _ _ _ _ _ _ (by omega), env_step_b_commit, env_done_nl]
  have h2 : (2 * m + 1) / 2 = m := by omega
  rw [h2]
  simp [dict_insert]
  rw [string_join_cat3]
  rfl

/-- C8: in an unquoted value a run of `N` backslashes resolves to
`N / 2` literal backslashes; when `N` is odd the leftover backslash
escapes the following character — an escaped newline is omitted
entirely (line continuation, third conjunct: the spec's `MULTILINE`
example), any other escaped character is emitted literally with the
backslash dropped (first conjunct, with an escaped space kept); when
`N` is even no following character is consumed (first conjunct with
even `N`: the following space terminates the value). -/
theorem c8_backslash_run_resolution :
    (∀ N : Nat, parse_env_file ["K=" ++ bs_str N ++ " \n"] =
      .ok [("K", bs_str (N / 2) ++ (if N % 2 = 1 then " " else ""))]) ∧
    (∀ m : Nat, parse_env_file ["K=a" ++ bs_str (2 * m + 1) ++ "\n", "b\n"] =
      .ok [("K", "a" ++ bs_str m ++ "b")]) ∧
    parse_env_file ["MULTILINE=line1\\\n", "line2\\\n", "line3"] =
      .ok [("MULTILINE", "line1line2line3")] :=
  ⟨env_parse_backslash_run, env_parse_line_continuation, rfl⟩

/-- `_get_line_number` never reports a line below the starting count. -/
theorem get_line_number_go_ge (lines : List String) :
    ∀ ln pos : Nat, ln ≤ (get_line_number_go ln pos lines).1 := by
  induction lines with
  | nil => intro ln pos; exact le_refl _
  | cons l rest ih =>
    intro ln pos
    by_cases h : l.length > pos
    · simp [get_line_number_go, h]
    · simp only [get_line_number_go, if_neg h]
      exact le_trans (Nat.le_succ ln) (ih (ln + 1) (pos - l.length))

/-- C9: the parser's error taxonomy with 1-indexed locations:
`Expected assignment operator` for an identifier-like token with no
`=` (first two conjuncts), `Expected variable assignment` when no
assignment header can be parsed at all (third), `Unmatched single
quote` / `Unmatched double quote` at end-of-input inside a quoted
region (fourth and fifth, plus a multi-line case showing the line
number is 1-indexed and advances), and every reported line number is
at least 1 (last conjunct). -/
theorem c9_parse_error_taxonomy :
    parse_env_file ["KEY VALUE\n"] =
      .error { issue := "Expected assignment operator", line_num := 1, position := 3 } ∧
    parse_env_file ["INVALID_LINE\n"] =
      .error { issue := "Expected assignment operator", line_num := 1, position := 12 } ∧
    parse_env_file ["?=1\n"] =
      .error { issue := "Expected variable assignment", line_num := 1, position := 0 } ∧
    parse_env_file ["KEY='unmatched\n"] =
      .error { issue := "Unmatched single quote", line_num := 1, position := 5 } ∧
    parse_env_file ["KEY=\"unmatched\n"] =
      .error { issue := "Unmatched double quote", line_num := 1, position := 5 } ∧
    parse_env_file ["A=1\n", "B=\"x\n"] =
      .error { issue := "Unmatched double quote", line_num := 2, position := 3 } ∧
    (∀ (offset : Nat) (lines : List String),
      1 ≤ (mk_parse_error "issue" offset lines).line_num) :=
  ⟨rfl, rfl, rfl, rfl, rfl, rfl, fun offset lines => get_line_number_go_ge lines 1 offset⟩
